import Mathlib

/-!
Shallow embedding of the virtualmouse key-state-to-motion engine
(src/main.cpp).  The engine state consists of the NumLock flag
`numlockOn`, the per-direction activity array `isMoving`, and the
per-direction hold counters `moveTimes`; the operations below embed the
C functions of the same names.  Event-type and key codes are the Linux
input constants used by the program.
-/

namespace VirtualMouse

/-- Linux input event type for key events (EV_KEY = 0x01). -/
def EV_KEY : ℕ := 1

/-- Linux input event type for LED events (EV_LED = 0x11). -/
def EV_LED : ℕ := 17

/-- Linux input event type for relative-motion events (EV_REL = 0x02). -/
def EV_REL : ℕ := 2

/-- Linux input event type for synchronization events (EV_SYN = 0x00). -/
def EV_SYN : ℕ := 0

/-- Keypad-8 key code (KEY_KP8 = 72), mapped to Up. -/
def KEY_KP8 : ℕ := 72

/-- Keypad-2 key code (KEY_KP2 = 80), mapped to Down. -/
def KEY_KP2 : ℕ := 80

/-- Keypad-4 key code (KEY_KP4 = 75), mapped to Left. -/
def KEY_KP4 : ℕ := 75

/-- Keypad-6 key code (KEY_KP6 = 77), mapped to Right. -/
def KEY_KP6 : ℕ := 77

/-- NumLock LED code (LED_NUML = 0x00). -/
def LED_NUML : ℕ := 0

/-- Horizontal relative axis code (REL_X = 0x00). -/
def REL_X : ℕ := 0

/-- Vertical relative axis code (REL_Y = 0x01). -/
def REL_Y : ℕ := 1

/-- Synchronization report code (SYN_REPORT = 0). -/
def SYN_REPORT : ℕ := 0

/-- Direction index UP (src/main.cpp:209). -/
def UP : Fin 4 := 0

/-- Direction index DOWN (src/main.cpp:210). -/
def DOWN : Fin 4 := 1

/-- Direction index LEFT (src/main.cpp:211). -/
def LEFT : Fin 4 := 2

/-- Direction index RIGHT (src/main.cpp:212). -/
def RIGHT : Fin 4 := 3

/-- Number of directions (src/main.cpp:213). -/
def DIRECTION_NUM : ℕ := 4

/-- One Linux `input_event` record as the dispatcher inspects it:
event type, event code, event value (src/main.cpp:283-334). -/
structure InputEvent where
  type : ℕ
  code : ℕ
  value : ℤ

/-- The engine's mutable state: the NumLock flag `numlockOn`
(src/main.cpp:207), the per-direction activity array `isMoving`
(src/main.cpp:217) and the per-direction hold counters `moveTimes`
(src/main.cpp:221).  `moveTimes` entries start at 0 and only ever
increment or reset, so they are modelled as naturals. -/
structure EngineState where
  numlockOn : Bool
  isMoving : Fin 4 → Bool
  moveTimes : Fin 4 → ℕ

/-- Embeds `resetMoveTimes` (src/main.cpp:223-229): zeroes every hold
counter. -/
def resetMoveTimes (s : EngineState) : EngineState :=
  { s with moveTimes := fun _ => 0 }

/-- Embeds `moveStep` (src/main.cpp:233-252).  The C middle regime computes
`MIN_STEP + (times - MIN_POINT) * 1.0 / (MAX_POINT - MIN_POINT) * (MAX_STEP - MIN_STEP)`
in IEEE double and truncates to `int` on return.  Over the whole domain
`50 < times ≤ 200` the double computation (two roundings after an exact
subtraction, then an exact-or-rounded add of 1) stays within 2^-49 of the
exact rational value; the exact value `1 + (times-50) * 9 / 150` is either an
integer that round-to-nearest lands on exactly (times = 100, 150, 200, where
the product of the rounded quotient by 9 is within half an ulp of the integer)
or lies at distance at least 1/50 from every integer, so truncating the double
equals truncating the exact rational value.  The embedding therefore uses
exact rational arithmetic with `Int.floor`, which coincides with C's
truncation toward zero because the value is nonnegative. -/
def moveStep (times : ℕ) : ℤ :=
  let MIN_STEP : ℤ := 1
  let MAX_STEP : ℤ := 10
  let MIN_POINT : ℕ := 50
  let MAX_POINT : ℕ := 200
  if times ≤ MIN_POINT then
    MIN_STEP
  else if times ≤ MAX_POINT then
    ⌊(MIN_STEP : ℚ) + ((times : ℚ) - (MIN_POINT : ℚ)) * 1 / ((MAX_POINT : ℚ) - (MIN_POINT : ℚ)) * ((MAX_STEP : ℚ) - (MIN_STEP : ℚ))⌋
  else
    MAX_STEP

/-- Embeds `setIsMoving` (src/main.cpp:257-264): stores the activity flag,
and zeroes the hold counter when the stored value is false.  Note the
counter is reset on every deactivating call, whether or not the flag
changed, and is never touched on an activating call. -/
def setIsMoving (s : EngineState) (index : Fin 4) (value : Bool) : EngineState :=
  let s1 := { s with isMoving := Function.update s.isMoving index value }
  if !value then
    { s1 with moveTimes := Function.update s1.moveTimes index 0 }
  else
    s1

/-- Embeds `keyAction` (src/main.cpp:266-281): value 1 activates, value 0
deactivates, anything else (autorepeat value 2) is a no-op.  The C
`ENSURE` bound check on the index is discharged by the `Fin 4` type. -/
def keyAction (s : EngineState) (index : Fin 4) (value : ℤ) : EngineState :=
  if value = 1 then
    setIsMoving s index true
  else if value = 0 then
    setIsMoving s index false
  else
    s

/-- Embeds the key-code switch of `handleKeyEvent` (src/main.cpp:290-298):
maps the four keypad codes to direction indices, everything else to
none (index -1 in C). -/
def keyIndex (code : ℕ) : Option (Fin 4) :=
  if code = KEY_KP8 then some UP
  else if code = KEY_KP2 then some DOWN
  else if code = KEY_KP4 then some LEFT
  else if code = KEY_KP6 then some RIGHT
  else none

/-- Embeds `handleKeyEvent` (src/main.cpp:283-303): returns immediately
while NumLock is on, otherwise routes recognized key codes to
`keyAction`. -/
def handleKeyEvent (s : EngineState) (ev : InputEvent) : EngineState :=
  if s.numlockOn then
    s
  else
    match keyIndex ev.code with
    | some index => keyAction s index ev.value
    | none => s

/-- Embeds `handleLEDEvent` (src/main.cpp:305-322): on the NumLock LED
code, value 0 clears `numlockOn`, value 1 sets it and deactivates every
direction via `setIsMoving`; any other value does nothing. -/
def handleLEDEvent (s : EngineState) (ev : InputEvent) : EngineState :=
  if ev.code = LED_NUML then
    if ev.value = 0 then
      { s with numlockOn := false }
    else if ev.value = 1 then
      (List.finRange 4).foldl (fun t i => setIsMoving t i false)
        { s with numlockOn := true }
    else
      s
  else
    s

/-- Embeds `handleEvent` (src/main.cpp:324-334): dispatches on the event
type, ignoring everything but EV_KEY and EV_LED. -/
def handleEvent (s : EngineState) (ev : InputEvent) : EngineState :=
  if ev.type = EV_KEY then
    handleKeyEvent s ev
  else if ev.type = EV_LED then
    handleLEDEvent s ev
  else
    s

/-- Embeds `incMoveTimes` (src/main.cpp:381-390): increments the hold
counter of every currently active direction. -/
def incMoveTimes (s : EngineState) : EngineState :=
  { s with moveTimes := fun i => if s.isMoving i then s.moveTimes i + 1 else s.moveTimes i }

/-- Embeds `calcMoveSteps` (src/main.cpp:392-413): takes the
caller-initialized steps array, fills in `moveStep` of each active
direction's hold counter, then zeroes both members of an axis when its
two opposite directions are simultaneously active. -/
def calcMoveSteps (s : EngineState) (steps0 : Fin 4 → ℤ) : Fin 4 → ℤ :=
  let steps1 : Fin 4 → ℤ := fun i => if s.isMoving i then moveStep (s.moveTimes i) else steps0 i
  let steps2 : Fin 4 → ℤ :=
    if s.isMoving UP && s.isMoving DOWN then
      Function.update (Function.update steps1 UP 0) DOWN 0
    else
      steps1
  if s.isMoving LEFT && s.isMoving RIGHT then
    Function.update (Function.update steps2 LEFT 0) RIGHT 0
  else
    steps2

/-- Size in bytes of one Linux `input_event` record on the 64-bit ABI the
program targets: a 16-byte timeval plus type (2), code (2), value (4). -/
def sizeofInputEvent : ℕ := 24

/-- Outcome of the emission write in `writeDevice`: either the three-event
packet was written in full, or `ENSURE` failed and the process exits
fatally via `err(EXIT_FAILURE, ...)`. -/
inductive WriteOutcome
  | emitted (events : List (ℕ × ℕ × ℤ))
  | fatalExit
deriving DecidableEq

/-- Embeds `writeDevice` (src/main.cpp:416-437): builds the three-event
packet (REL_X delta, REL_Y delta, SYN_REPORT) and performs one `write`;
`ret` is the byte count that `write` returned.  `ENSURE(ret == sizeof(ev))`
makes any other byte count fatal; there is no retry path. -/
def writeDevice (steps : Fin 4 → ℤ) (ret : ℤ) : WriteOutcome :=
  let x := steps RIGHT - steps LEFT
  let y := steps DOWN - steps UP
  let ev : List (ℕ × ℕ × ℤ) := [(EV_REL, REL_X, x), (EV_REL, REL_Y, y), (EV_SYN, SYN_REPORT, 0)]
  if ret = (3 * sizeofInputEvent : ℤ) then
    WriteOutcome.emitted ev
  else
    WriteOutcome.fatalExit

/-- Embeds one iteration of the tick path `moveMouse` (src/main.cpp:439-445):
increment the hold counters, compute the steps from a zero-initialized
array, and write the packet.  Only `incMoveTimes` mutates the engine
state. -/
def moveMouse (s : EngineState) (ret : ℤ) : EngineState × WriteOutcome :=
  let s1 := incMoveTimes s
  let steps := calcMoveSteps s1 (fun _ => 0)
  (s1, writeDevice steps ret)

/-- The engine state right after startup: `numlockOn` holds whatever
`queryNumlock` returned (src/main.cpp:467), no direction is active
(static initialization, src/main.cpp:217), and every hold counter is 0
(static zero-initialization of the atomics plus `resetMoveTimes`,
src/main.cpp:490). -/
def initState (numlock0 : Bool) : EngineState :=
  resetMoveTimes { numlockOn := numlock0, isMoving := fun _ => false, moveTimes := fun _ => 0 }

/-- One observable step of the engine at the granularity of the claims:
either the dispatch loop processes one input event, or the tick path
mutates the state (its only state change is `incMoveTimes`). -/
inductive Step : EngineState → EngineState → Prop
  | event (s : EngineState) (ev : InputEvent) : Step s (handleEvent s ev)
  | tick (s : EngineState) : Step s (incMoveTimes s)

/-- States reachable from engine start (with initial NumLock reading
`numlock0`) by any sequence of key events, LED events and ticks. -/
def Reachable (numlock0 : Bool) (s : EngineState) : Prop :=
  Relation.ReflTransGen Step (initState numlock0) s

/-- The inactive-implies-zero invariant: a direction whose activity flag
is false has hold counter 0. -/
def MoveInv (s : EngineState) : Prop :=
  ∀ d : Fin 4, s.isMoving d = false → s.moveTimes d = 0

/-! ## Basic shape lemmas for the acceleration function -/

/-- Unfolding lemma: `setIsMoving` with value false stores the flag and
zeroes the hold counter. -/
theorem setIsMoving_false_def (s : EngineState) (d : Fin 4) :
    setIsMoving s d false
      = ⟨s.numlockOn, Function.update s.isMoving d false, Function.update s.moveTimes d 0⟩ := rfl

/-- Unfolding lemma: `setIsMoving` with value true stores the flag and
leaves every hold counter untouched. -/
theorem setIsMoving_true_def (s : EngineState) (d : Fin 4) :
    setIsMoving s d true
      = ⟨s.numlockOn, Function.update s.isMoving d true, s.moveTimes⟩ := rfl

/-- In the first regime (`times ≤ 50`) the step is the minimum, 1. -/
theorem moveStep_low (t : ℕ) (h : t ≤ 50) : moveStep t = 1 := by
  simp [moveStep, h]

/-- In the third regime (`times > 200`) the step is the maximum, 10. -/
theorem moveStep_high (t : ℕ) (h : 200 < t) : moveStep t = 10 := by
  have h1 : ¬ t ≤ 50 := by omega
  have h2 : ¬ t ≤ 200 := by omega
  simp [moveStep, h1, h2]

/-- In the middle regime the rational-floor computation collapses to the
integer formula `1 + (t - 50) * 9 / 150` with euclidean division (which
agrees with C's truncating division because the operands are
nonnegative). -/
theorem moveStep_linear (t : ℕ) (h1 : 50 < t) (h2 : t ≤ 200) :
    moveStep t = 1 + ((t : ℤ) - 50) * 9 / 150 := by
  have h1' : ¬ t ≤ 50 := by omega
  simp only [moveStep, h1', if_false, h2, if_true]
  have e : ((1 : ℤ) : ℚ) + ((((t : ℤ) - 50) * 9 : ℤ) : ℚ) / ((150 : ℕ) : ℚ)
      = ((1 : ℤ) : ℚ) + ((t : ℚ) - ((50 : ℕ) : ℚ)) * 1 / (((200 : ℕ) : ℚ) - ((50 : ℕ) : ℚ)) * (((10 : ℤ) : ℚ) - ((1 : ℤ) : ℚ)) := by
    push_cast; ring
  rw [← e, Int.floor_int_add, Rat.floor_intCast_div_natCast]
  norm_num

/-- The spec's way of writing the middle regime, a truncated rational,
also collapses to the integer formula. -/
theorem floor_linear_eq (t : ℕ) :
    ⌊((t : ℚ) - 50) / (200 - 50) * (10 - 1)⌋ = ((t : ℤ) - 50) * 9 / 150 := by
  have e : ((((t : ℤ) - 50) * 9 : ℤ) : ℚ) / ((150 : ℕ) : ℚ)
      = ((t : ℚ) - 50) / (200 - 50) * (10 - 1) := by
    push_cast; ring
  rw [← e, Rat.floor_intCast_div_natCast]
  norm_num

/-- Lower bound of the acceleration function: the step is at least 1. -/
theorem one_le_moveStep (t : ℕ) : 1 ≤ moveStep t := by
  rcases le_or_lt t 50 with h | h
  · rw [moveStep_low t h]
  · rcases le_or_lt t 200 with h2 | h2
    · rw [moveStep_linear t h h2]
      have : (0 : ℤ) ≤ ((t : ℤ) - 50) * 9 / 150 :=
        Int.ediv_nonneg (by omega) (by omega)
      omega
    · rw [moveStep_high t h2]; omega

/-- Upper bound of the acceleration function: the step is at most 10. -/
theorem moveStep_le_ten (t : ℕ) : moveStep t ≤ 10 := by
  rcases le_or_lt t 50 with h | h
  · rw [moveStep_low t h]; omega
  · rcases le_or_lt t 200 with h2 | h2
    · rw [moveStep_linear t h h2]
      have hle : ((t : ℤ) - 50) * 9 ≤ 1350 := by omega
      have := Int.ediv_le_ediv (by omega : (0:ℤ) < 150) hle
      have h1350 : (1350 : ℤ) / 150 = 9 := by decide
      omega
    · rw [moveStep_high t h2]

/-! ## Claim theorems -/

/-- C1: the acceleration function is the three-regime piecewise function:
for `t ≤ 50` it returns 1; for `50 < t ≤ 200` it returns
`1 + (t-50)/(200-50) * (10-1)` truncated to an integer (in particular
`moveStep 125 = 5` and `moveStep 200 = 10`); and for `t > 200` it
returns 10. -/
theorem moveStep_three_regimes (t : ℕ) :
    (t ≤ 50 → moveStep t = 1) ∧
    (50 < t → t ≤ 200 → moveStep t = 1 + ⌊((t : ℚ) - 50) / (200 - 50) * (10 - 1)⌋) ∧
    (200 < t → moveStep t = 10) ∧
    moveStep 125 = 5 ∧ moveStep 200 = 10 := by
  refine ⟨moveStep_low t, ?_, moveStep_high t, by norm_num [moveStep], by norm_num [moveStep]⟩
  intro h1 h2
  rw [moveStep_linear t h1 h2, floor_linear_eq]

/-- Witness for C1 at the concrete input 125, which lies in the middle
regime. -/
theorem moveStep_three_regimes_witness :
    50 < 125 ∧ moveStep 125 = 1 + ⌊((125 : ℚ) - 50) / (200 - 50) * (10 - 1)⌋ :=
  ⟨by norm_num, (moveStep_three_regimes 125).2.1 (by norm_num) (by norm_num)⟩

/-- C6: the acceleration function is monotonic non-decreasing: for all
hold durations `t1 ≤ t2`, `moveStep t1 ≤ moveStep t2`. -/
theorem moveStep_monotone (t1 t2 : ℕ) (h : t1 ≤ t2) : moveStep t1 ≤ moveStep t2 := by
  rcases le_or_lt t1 50 with ha | ha
  · rw [moveStep_low t1 ha]; exact one_le_moveStep t2
  · rcases le_or_lt t2 200 with hb | hb
    · have ha2 : 50 < t2 := by omega
      have hb1 : t1 ≤ 200 := by omega
      rw [moveStep_linear t1 ha hb1, moveStep_linear t2 ha2 hb]
      have hmul : ((t1 : ℤ) - 50) * 9 ≤ ((t2 : ℤ) - 50) * 9 := by omega
      have := Int.ediv_le_ediv (by omega : (0:ℤ) < 150) hmul
      omega
    · rw [moveStep_high t2 hb]; exact moveStep_le_ten t1

/-- Witness for C6 at the concrete pair 60 ≤ 180. -/
theorem moveStep_monotone_witness : 60 ≤ 180 ∧ moveStep 60 ≤ moveStep 180 :=
  ⟨by norm_num, moveStep_monotone 60 180 (by norm_num)⟩

/-- C7: the acceleration function is bounded: for every hold duration,
`1 ≤ moveStep t ≤ 10`. -/
theorem moveStep_bounded (t : ℕ) : 1 ≤ moveStep t ∧ moveStep t ≤ 10 :=
  ⟨one_le_moveStep t, moveStep_le_ten t⟩

/-- C2: on every emitter tick, if Up and Down are both active then the
steps computed for both directions are forced to exactly 0 whatever the
hold durations (and whatever the caller-initialized array held), and
independently the same holds for Left and Right. -/
theorem calcMoveSteps_cancel (s : EngineState) (steps0 : Fin 4 → ℤ) :
    (s.isMoving UP = true → s.isMoving DOWN = true →
      calcMoveSteps s steps0 UP = 0 ∧ calcMoveSteps s steps0 DOWN = 0) ∧
    (s.isMoving LEFT = true → s.isMoving RIGHT = true →
      calcMoveSteps s steps0 LEFT = 0 ∧ calcMoveSteps s steps0 RIGHT = 0) := by
  constructor
  · intro hu hd
    simp only [calcMoveSteps, UP, DOWN, LEFT, RIGHT] at *
    simp only [hu, hd, Bool.and_self, if_true]
    split <;> simp +decide [Function.update_apply]
  · intro hl hr
    simp only [calcMoveSteps, UP, DOWN, LEFT, RIGHT] at *
    simp only [hl, hr, Bool.and_self, if_true]
    split <;> simp +decide [Function.update_apply]

/-- Witness for C2: with all four directions active and hold counters 77,
all four computed steps are 0. -/
theorem calcMoveSteps_cancel_witness :
    (EngineState.mk false (fun _ => true) (fun _ => 77)).isMoving UP = true ∧
    calcMoveSteps (EngineState.mk false (fun _ => true) (fun _ => 77)) (fun _ => 0) UP = 0 ∧
    calcMoveSteps (EngineState.mk false (fun _ => true) (fun _ => 77)) (fun _ => 0) DOWN = 0 ∧
    calcMoveSteps (EngineState.mk false (fun _ => true) (fun _ => 77)) (fun _ => 0) LEFT = 0 ∧
    calcMoveSteps (EngineState.mk false (fun _ => true) (fun _ => 77)) (fun _ => 0) RIGHT = 0 :=
  ⟨rfl,
   ((calcMoveSteps_cancel _ _).1 rfl rfl).1,
   ((calcMoveSteps_cancel _ _).1 rfl rfl).2,
   ((calcMoveSteps_cancel _ _).2 rfl rfl).1,
   ((calcMoveSteps_cancel _ _).2 rfl rfl).2⟩

/-- A state in which a direction is inactive yet its hold counter is 5:
such states never arise in a run, but they separate the source's reset
rule (reset on every deactivating call only) from the claimed rule
(reset on every flag change). -/
def pressCounterexampleState : EngineState :=
  EngineState.mk false (fun _ => false) (fun _ => 5)

/-- C3 counterexample: an activating `setIsMoving` call that changes the
flag from false to true does not reset the hold counter — starting from
a state with `isMoving UP = false` and `moveTimes UP = 5`, after
`setIsMoving UP true` the flag has changed yet the counter is still 5,
refuting the claim that any flag change resets the counter. -/
theorem setIsMoving_press_keeps_ticks :
    pressCounterexampleState.isMoving UP = false ∧
    (setIsMoving pressCounterexampleState UP true).isMoving UP = true ∧
    (setIsMoving pressCounterexampleState UP true).moveTimes UP = 5 := by
  refine ⟨rfl, ?_, rfl⟩
  simp [pressCounterexampleState, setIsMoving, Function.update_apply]

/-- C3 amended: a deactivating `setIsMoving` call always resets the hold
counter (whether or not the flag changed); an activating call performs
no reset, but from any state satisfying the inactive-implies-zero
invariant the counter is 0 after the flag actually changes value in
either direction. -/
theorem setIsMoving_reset (s : EngineState) (d : Fin 4) (v : Bool) :
    (v = false → (setIsMoving s d v).moveTimes d = 0) ∧
    ((s.isMoving d = false → s.moveTimes d = 0) → s.isMoving d ≠ v →
      (setIsMoving s d v).moveTimes d = 0) := by
  cases v
  · constructor
    · intro _
      simp [setIsMoving, Function.update_apply]
    · intro _ _
      simp [setIsMoving, Function.update_apply]
  · constructor
    · intro h; exact absurd h (by simp)
    · intro hinv hne
      have hf : s.isMoving d = false := by
        cases hm : s.isMoving d
        · rfl
        · rw [hm] at hne; exact absurd rfl hne
      simp [setIsMoving, hinv hf]

/-- Witness for C3 amended: pressing Up from the start state (which
satisfies the invariant) leaves the counter at 0. -/
theorem setIsMoving_reset_witness :
    (setIsMoving (initState false) UP true).moveTimes UP = 0 :=
  (setIsMoving_reset (initState false) UP true).2 (fun _ => rfl) (by simp [initState, resetMoveTimes])

/-- Deactivating every direction (the body of the NumLock-on branch)
leaves NumLock untouched and forces every direction inactive with hold
counter 0. -/
theorem setAllFalse_spec (s : EngineState) :
    ((List.finRange 4).foldl (fun t i => setIsMoving t i false) s).numlockOn = s.numlockOn ∧
    ∀ d, ((List.finRange 4).foldl (fun t i => setIsMoving t i false) s).isMoving d = false ∧
         ((List.finRange 4).foldl (fun t i => setIsMoving t i false) s).moveTimes d = 0 := by
  have hl : (List.finRange 4 : List (Fin 4)) = [0, 1, 2, 3] := by decide
  rw [hl]
  simp only [List.foldl]
  refine ⟨by simp [setIsMoving], ?_⟩
  intro d
  fin_cases d <;> simp +decide [setIsMoving, Function.update_apply]

/-- C4: while the NumLock gate is blocking, no key event changes any
direction state (the whole state is returned untouched), and the instant
blocking begins — a NumLock LED event with value 1 — every direction is
forced inactive with hold counter 0. -/
theorem numlock_gate (s : EngineState) (ev : InputEvent) :
    (s.numlockOn = true → ev.type = EV_KEY → handleEvent s ev = s) ∧
    (ev.type = EV_LED → ev.code = LED_NUML → ev.value = 1 →
      (handleEvent s ev).numlockOn = true ∧
      ∀ d, (handleEvent s ev).isMoving d = false ∧ (handleEvent s ev).moveTimes d = 0) := by
  constructor
  · intro hn ht
    simp [handleEvent, ht, handleKeyEvent, hn]
  · intro ht hc hv
    have hne : ¬ ev.type = EV_KEY := by rw [ht]; decide
    simp only [handleEvent, hne, if_false, ht, if_true]
    have h1 : ¬ ev.value = 0 := by rw [hv]; decide
    simp only [handleLEDEvent, hc, if_true, h1, if_false, hv]
    exact ⟨(setAllFalse_spec _).1, (setAllFalse_spec _).2⟩

/-- Witness for C4: a key press is ignored while NumLock is on, and a
NumLock-on LED event zeroes a fully active state. -/
theorem numlock_gate_witness :
    (EngineState.mk true (fun _ => false) (fun _ => 0)).numlockOn = true ∧
    handleEvent (EngineState.mk true (fun _ => false) (fun _ => 0)) (InputEvent.mk EV_KEY KEY_KP8 1)
      = EngineState.mk true (fun _ => false) (fun _ => 0) ∧
    (handleEvent (EngineState.mk false (fun _ => true) (fun _ => 9)) (InputEvent.mk EV_LED LED_NUML 1)).numlockOn = true ∧
    (handleEvent (EngineState.mk false (fun _ => true) (fun _ => 9)) (InputEvent.mk EV_LED LED_NUML 1)).isMoving UP = false ∧
    (handleEvent (EngineState.mk false (fun _ => true) (fun _ => 9)) (InputEvent.mk EV_LED LED_NUML 1)).moveTimes UP = 0 :=
  ⟨rfl,
   (numlock_gate (EngineState.mk true (fun _ => false) (fun _ => 0)) (InputEvent.mk EV_KEY KEY_KP8 1)).1 rfl rfl,
   ((numlock_gate (EngineState.mk false (fun _ => true) (fun _ => 9)) (InputEvent.mk EV_LED LED_NUML 1)).2 rfl rfl rfl).1,
   (((numlock_gate (EngineState.mk false (fun _ => true) (fun _ => 9)) (InputEvent.mk EV_LED LED_NUML 1)).2 rfl rfl rfl).2 UP).1,
   (((numlock_gate (EngineState.mk false (fun _ => true) (fun _ => 9)) (InputEvent.mk EV_LED LED_NUML 1)).2 rfl rfl rfl).2 UP).2⟩

/-- A NumLock LED event carrying value 2. -/
def ledValueTwoEvent : InputEvent := InputEvent.mk EV_LED LED_NUML 2

/-- C5 counterexample: a NumLock LED event with the nonzero value 2 does
not set the gate to blocking — the dispatcher leaves the state unchanged,
refuting the claim that every nonzero value blocks. -/
theorem ledValueTwo_not_blocking :
    ledValueTwoEvent.value ≠ 0 ∧
    (handleEvent (initState false) ledValueTwoEvent).numlockOn = false := by
  constructor
  · decide
  · rfl

/-- C5 amended: for LED events carrying the NumLock code, value 0 clears
the gate, value 1 sets it to blocking, and any other value (such as 2)
leaves the whole state unchanged. -/
theorem handleLEDEvent_numlock (s : EngineState) (ev : InputEvent) (hc : ev.code = LED_NUML) :
    (ev.value = 0 → (handleLEDEvent s ev).numlockOn = false) ∧
    (ev.value = 1 → (handleLEDEvent s ev).numlockOn = true) ∧
    (ev.value ≠ 0 → ev.value ≠ 1 → handleLEDEvent s ev = s) := by
  refine ⟨fun h0 => ?_, fun h1 => ?_, fun h0 h1 => ?_⟩
  · simp [handleLEDEvent, hc, h0]
  · have hne : ¬ ev.value = 0 := by rw [h1]; decide
    simp only [handleLEDEvent, hc, if_true, hne, if_false, h1]
    exact (setAllFalse_spec _).1
  · simp [handleLEDEvent, hc, h0, h1]

/-- Witness for C5 amended: a NumLock LED event with value 0 clears the
gate. -/
theorem handleLEDEvent_numlock_witness :
    (handleLEDEvent (initState true) (InputEvent.mk EV_LED LED_NUML 0)).numlockOn = false :=
  (handleLEDEvent_numlock (initState true) (InputEvent.mk EV_LED LED_NUML 0) rfl).1 rfl

/-- C8: if the three-event emission write does not complete in full — the
returned byte count differs from the size of the three event records —
the program terminates fatally; an emission is accepted only when the
byte count matches exactly, with no retry path. -/
theorem writeDevice_partial_fatal (steps : Fin 4 → ℤ) (ret : ℤ) :
    (ret ≠ 3 * (sizeofInputEvent : ℤ) → writeDevice steps ret = WriteOutcome.fatalExit) ∧
    (∀ evs, writeDevice steps ret = WriteOutcome.emitted evs → ret = 3 * (sizeofInputEvent : ℤ)) := by
  constructor
  · intro h
    simp [writeDevice, h]
  · intro evs h
    by_contra hne
    simp [writeDevice, hne] at h

/-- Witness for C8: a short write of 71 of the 72 bytes is fatal. -/
theorem writeDevice_partial_fatal_witness :
    (71 : ℤ) ≠ 3 * (sizeofInputEvent : ℤ) ∧
    writeDevice (fun _ => 0) 71 = WriteOutcome.fatalExit :=
  ⟨by norm_num [sizeofInputEvent],
   (writeDevice_partial_fatal (fun _ => 0) 71).1 (by norm_num [sizeofInputEvent])⟩

/-! ## The inactive-implies-zero invariant over all reachable states -/

/-- Each `setIsMoving` call preserves the inactive-implies-zero
invariant. -/
theorem setIsMoving_moveInv (s : EngineState) (d : Fin 4) (v : Bool)
    (h : MoveInv s) : MoveInv (setIsMoving s d v) := by
  intro d' hd'
  cases v
  · rw [setIsMoving_false_def] at hd' ⊢
    by_cases hdd : d' = d
    · subst hdd; simp [Function.update_apply]
    · simp only [Function.update_apply, if_neg hdd] at hd' ⊢
      exact h d' hd'
  · rw [setIsMoving_true_def] at hd' ⊢
    by_cases hdd : d' = d
    · subst hdd; simp [Function.update_apply] at hd'
    · simp only [Function.update_apply, if_neg hdd] at hd'
      exact h d' hd'

/-- `keyAction` preserves the inactive-implies-zero invariant. -/
theorem keyAction_moveInv (s : EngineState) (d : Fin 4) (v : ℤ)
    (h : MoveInv s) : MoveInv (keyAction s d v) := by
  unfold keyAction
  split
  · exact setIsMoving_moveInv s d true h
  · split
    · exact setIsMoving_moveInv s d false h
    · exact h

/-- `handleKeyEvent` preserves the inactive-implies-zero invariant. -/
theorem handleKeyEvent_moveInv (s : EngineState) (ev : InputEvent)
    (h : MoveInv s) : MoveInv (handleKeyEvent s ev) := by
  unfold handleKeyEvent
  split
  · exact h
  · split
    · exact keyAction_moveInv _ _ _ h
    · exact h

/-- `handleLEDEvent` preserves the inactive-implies-zero invariant. -/
theorem handleLEDEvent_moveInv (s : EngineState) (ev : InputEvent)
    (h : MoveInv s) : MoveInv (handleLEDEvent s ev) := by
  unfold handleLEDEvent
  split
  · split
    · exact h
    · split
      · intro d _
        exact ((setAllFalse_spec _).2 d).2
      · exact h
  · exact h

/-- `handleEvent` preserves the inactive-implies-zero invariant. -/
theorem handleEvent_moveInv (s : EngineState) (ev : InputEvent)
    (h : MoveInv s) : MoveInv (handleEvent s ev) := by
  unfold handleEvent
  split
  · exact handleKeyEvent_moveInv s ev h
  · split
    · exact handleLEDEvent_moveInv s ev h
    · exact h

/-- The tick path's state change `incMoveTimes` preserves the
inactive-implies-zero invariant: it increments only active directions. -/
theorem incMoveTimes_moveInv (s : EngineState) (h : MoveInv s) :
    MoveInv (incMoveTimes s) := by
  intro d hd
  have hd' : s.isMoving d = false := hd
  show (if s.isMoving d then s.moveTimes d + 1 else s.moveTimes d) = 0
  rw [hd']
  exact h d hd'

/-- Every state reachable from engine start satisfies the
inactive-implies-zero invariant. -/
theorem reachable_moveInv (b : Bool) (s : EngineState) (h : Reachable b s) : MoveInv s := by
  induction h with
  | refl => intro d _; rfl
  | tail hab hstep ih =>
      cases hstep with
      | event ev => exact handleEvent_moveInv _ _ ih
      | tick => exact incMoveTimes_moveInv _ ih

/-- C10: in every state reachable from engine start by any sequence of
key events, LED events and ticks, a direction whose active flag is false
has hold counter 0; consequently a press (`keyAction` with value 1) from
such a state starts accelerating from hold counter 0 even though
activation itself performs no explicit reset. -/
theorem reachable_inactive_zero (b : Bool) (s : EngineState) (h : Reachable b s) (d : Fin 4) :
    (s.isMoving d = false → s.moveTimes d = 0) ∧
    (s.isMoving d = false → (keyAction s d 1).moveTimes d = 0) := by
  refine ⟨reachable_moveInv b s h d, fun hd => ?_⟩
  show (setIsMoving s d true).moveTimes d = 0
  rw [setIsMoving_true_def]
  exact reachable_moveInv b s h d hd

/-- Witness for C10 at the (trivially reachable) start state. -/
theorem reachable_inactive_zero_witness :
    (initState false).moveTimes UP = 0 ∧
    (keyAction (initState false) UP 1).moveTimes UP = 0 :=
  ⟨(reachable_inactive_zero false (initState false) Relation.ReflTransGen.refl UP).1 rfl,
   (reachable_inactive_zero false (initState false) Relation.ReflTransGen.refl UP).2 rfl⟩

end VirtualMouse
